import Mathlib

set_option maxHeartbeats 1000000

/-!
Shallow embedding of `wgpu-hal/src/vulkan/command.rs`: the Vulkan command
encoder's pool management (`begin_encoding` / `end_encoding` /
`discard_encoding` / `reset_all`), the barrier-batch dispatch, the
copy-region translation and `fill_buffer`.

Native Vulkan handles are modelled as natural numbers (`0` is the null
handle). Machine integers are modelled as `Nat` with an explicit `% 2 ^ 32`
where a `u32` operation can overflow. The outcome of each fallible native
call is an explicit `Option DeviceError` parameter of the embedded
operation (`none` = the native call succeeded); `&mut self` methods are
embedded as functions `CommandEncoder → ... → CommandEncoder × result`, so
mutations performed before a failing native call persist exactly as the
`?` early return leaves them in the source.

The `conv::*` translators live in a sibling file that is not part of the
sources here; they are pure leaf functions (spec §4.2/§4.3), so the
embedded operations take them as function parameters, except
`derive_image_layout`, which a claim pins concretely and which is
therefore modelled from the spec below.
-/

/-- `const ALLOCATION_GRANULARITY: u32 = 16;` (command.rs line 8). -/
def ALLOCATION_GRANULARITY : Nat := 16

/-- `vk::CommandBuffer::null()`. Allocated handles are nonzero in this model. -/
def nullBuffer : Nat := 0

/-- `vk::WHOLE_SIZE` (`u64::MAX`). -/
def WHOLE_SIZE : Nat := 2 ^ 64 - 1

/-- The `vk::ImageLayout` values relevant to this file. -/
inductive VkImageLayout where
  | undefined
  | general
  | colorAttachmentOptimal
  | depthStencilAttachmentOptimal
  | depthStencilReadOnlyOptimal
  | shaderReadOnlyOptimal
  | transferSrcOptimal
  | transferDstOptimal
  | presentSrc
  deriving DecidableEq

/-- `const DST_IMAGE_LAYOUT: vk::ImageLayout = vk::ImageLayout::TRANSFER_DST_OPTIMAL;`
(command.rs line 9). -/
def DST_IMAGE_LAYOUT : VkImageLayout := VkImageLayout.transferDstOptimal

/-- Modelled from the spec: `crate::TextureUse`, the abstract texture usage
states, is declared outside the sources here. Spec §3 enumerates
copy-source, copy-destination, sampled, storage-read, storage-write,
render-target, depth-stencil, present. -/
inductive TextureUse where
  | copySrc
  | copyDst
  | sampled
  | storageRead
  | storageWrite
  | colorTarget
  | depthStencilRead
  | depthStencilWrite
  | present
  deriving DecidableEq

/-- Modelled from the spec: `conv::derive_image_layout` is not among the
sources here. Spec §8 fixes `derive_image_layout(COPY_DST) ==
TRANSFER_DST_OPTIMAL` ("copy-destination always resolves to the
transfer-destination-optimal layout"); per §4.2 the map is total over the
declared usage states, each resolving to its required native layout. -/
def derive_image_layout : TextureUse → VkImageLayout
  | .copySrc => .transferSrcOptimal
  | .copyDst => .transferDstOptimal
  | .sampled => .shaderReadOnlyOptimal
  | .storageRead => .general
  | .storageWrite => .general
  | .colorTarget => .colorAttachmentOptimal
  | .depthStencilRead => .depthStencilReadOnlyOptimal
  | .depthStencilWrite => .depthStencilAttachmentOptimal
  | .present => .presentSrc

/-- The uniform device error (spec §6: out-of-host-memory,
out-of-device-memory, device-lost). -/
inductive DeviceError where
  | outOfHostMemory
  | outOfDeviceMemory
  | deviceLost
  deriving DecidableEq

/-- `std::ops::Range` as it appears in the encoder interface
(`usage: Range<...>`, `range: MemoryRange`). -/
structure RustRange (α : Type) where
  start : α
  «end» : α
  deriving DecidableEq

/-- `crate::BufferUse` is a bitflags value declared outside the sources here;
modelled as a bitmask. Its `conv` translation is a parameter of the
operations below. -/
abbrev BufferUse := Nat

/-- `super::Buffer`: only the raw native handle is read by this file. -/
structure Buffer where
  raw : Nat
  deriving DecidableEq

/-- `wgt::TextureDimension`. -/
inductive TextureDimension where
  | d1
  | d2
  | d3
  deriving DecidableEq

/-- The texel-block format description read by `map_buffer_copies`:
`block_size` in bytes, `block_dimensions` = (width, height) in texels. -/
structure FormatInfo where
  block_size : Nat
  block_dimensions : Nat × Nat
  deriving DecidableEq

/-- `super::Texture`: raw handle, dimension, declared aspect set (bitmask)
and format info — the fields `map_buffer_copies` and the copies read. -/
structure Texture where
  raw : Nat
  dim : TextureDimension
  aspects : Nat
  format_info : FormatInfo
  deriving DecidableEq

/-- The texture-side base of a copy region (origin, mip level, array layer,
aspect); opaque to this file, forwarded to `conv::map_subresource_layers`. -/
structure TextureCopyBase where
  origin_x : Nat
  origin_y : Nat
  origin_z : Nat
  mip_level : Nat
  array_layer : Nat
  aspect : Nat
  deriving DecidableEq

/-- The copy size (width, height, depth-or-layers); forwarded to
`conv::map_extent`. -/
structure CopyExtent where
  width : Nat
  height : Nat
  depth_or_layers : Nat
  deriving DecidableEq

/-- `crate::BufferTextureCopy.buffer_layout`: byte offset plus optional
bytes-per-row and rows-per-image (`Option<NonZeroU32>` in the source;
`none` encodes "tightly packed"). -/
structure BufferLayout where
  offset : Nat
  bytes_per_row : Option Nat
  rows_per_image : Option Nat
  deriving DecidableEq

/-- `crate::BufferTextureCopy`. -/
structure BufferTextureCopy where
  buffer_layout : BufferLayout
  texture_base : TextureCopyBase
  size : CopyExtent
  deriving DecidableEq

/-- `crate::BufferCopy` (`size` is `NonZeroU64` in the source; `r.size.get()`). -/
structure BufferCopy where
  src_offset : Nat
  dst_offset : Nat
  size : Nat
  deriving DecidableEq

/-- `crate::TextureCopy`. -/
structure TextureCopy where
  src_base : TextureCopyBase
  dst_base : TextureCopyBase
  size : CopyExtent
  deriving DecidableEq

/-- The caller's requested texture subresource range; opaque to this file,
forwarded to `conv::map_subresource_range`. -/
structure TextureSubresourceRange where
  base_mip_level : Nat
  mip_level_count : Option Nat
  base_array_layer : Nat
  array_layer_count : Option Nat
  deriving DecidableEq

/-- `crate::BufferBarrier`. -/
structure BufferBarrier where
  buffer : Buffer
  usage : RustRange BufferUse
  deriving DecidableEq

/-- `crate::TextureBarrier`. -/
structure TextureBarrier where
  texture : Texture
  range : TextureSubresourceRange
  usage : RustRange TextureUse
  deriving DecidableEq

/-- `vk::Extent3D`. -/
structure VkExtent3D where
  width : Nat
  height : Nat
  depth : Nat
  deriving DecidableEq

/-- `vk::Offset3D`. -/
structure VkOffset3D where
  x : Int
  y : Int
  z : Int
  deriving DecidableEq

/-- `vk::ImageSubresourceLayers`. -/
structure VkImageSubresourceLayers where
  aspect_mask : Nat
  mip_level : Nat
  base_array_layer : Nat
  layer_count : Nat
  deriving DecidableEq

/-- `vk::ImageSubresourceRange`. -/
structure VkImageSubresourceRange where
  aspect_mask : Nat
  base_mip_level : Nat
  level_count : Nat
  base_array_layer : Nat
  layer_count : Nat
  deriving DecidableEq

/-- `vk::BufferImageCopy`. -/
structure VkBufferImageCopy where
  buffer_offset : Nat
  buffer_row_length : Nat
  buffer_image_height : Nat
  image_subresource : VkImageSubresourceLayers
  image_offset : VkOffset3D
  image_extent : VkExtent3D
  deriving DecidableEq

/-- `vk::BufferMemoryBarrier`; builder defaults leave `offset` at 0. -/
structure VkBufferMemoryBarrier where
  src_access_mask : Nat
  dst_access_mask : Nat
  buffer : Nat
  offset : Nat
  size : Nat
  deriving DecidableEq

/-- `vk::ImageMemoryBarrier`. -/
structure VkImageMemoryBarrier where
  src_access_mask : Nat
  dst_access_mask : Nat
  old_layout : VkImageLayout
  new_layout : VkImageLayout
  image : Nat
  subresource_range : VkImageSubresourceRange
  deriving DecidableEq

/-- The arguments of the single `cmd_pipeline_barrier` call a transition
batch issues. -/
structure PipelineBarrierCall where
  command_buffer : Nat
  src_stage_mask : Nat
  dst_stage_mask : Nat
  memory_barriers : List Unit
  buffer_barriers : List VkBufferMemoryBarrier
  image_barriers : List VkImageMemoryBarrier
  deriving DecidableEq

/-- Type of `conv::map_buffer_usage_to_barrier`: usage to (pipeline stage
mask, access mask). The function itself is outside the sources here; the
theorems quantify over it. -/
abbrev BufferUsageToBarrier := BufferUse → Nat × Nat

/-- Type of `conv::map_texture_usage_to_barrier`. -/
abbrev TextureUsageToBarrier := TextureUse → Nat × Nat

/-- Type of `conv::map_extent`: size and dimension to (layer count, extent). -/
abbrev MapExtent := CopyExtent → TextureDimension → Nat × VkExtent3D

/-- Type of `conv::map_subresource_layers`. -/
abbrev MapSubresourceLayers :=
  TextureCopyBase → TextureDimension → Nat → Nat → VkImageSubresourceLayers × VkOffset3D

/-- Type of `conv::map_subresource_range`. -/
abbrev MapSubresourceRange := TextureSubresourceRange → Nat → VkImageSubresourceRange

/-- The per-region closure inside `Texture::map_buffer_copies` (command.rs
lines 19-37). `bpr.get() / block_size` is truncating `u32` division;
`rpi.get() * block_dimensions.1 as u32` is `u32` multiplication, hence the
explicit `% 2 ^ 32`; the division never overflows. An unset layout field is
encoded as 0 (`map_or(0, ...)`). -/
def Texture.map_buffer_copy (self : Texture) (map_extent : MapExtent)
    (map_subresource_layers : MapSubresourceLayers) (r : BufferTextureCopy) :
    VkBufferImageCopy :=
  let lc_extent := map_extent r.size self.dim
  let sub_offset := map_subresource_layers r.texture_base self.dim self.aspects lc_extent.1
  { buffer_offset := r.buffer_layout.offset
    buffer_row_length :=
      match r.buffer_layout.bytes_per_row with
      | none => 0
      | some bpr => bpr / self.format_info.block_size
    buffer_image_height :=
      match r.buffer_layout.rows_per_image with
      | none => 0
      | some rpi => rpi * self.format_info.block_dimensions.2 % 2 ^ 32
    image_subresource := sub_offset.1
    image_offset := sub_offset.2
    image_extent := lc_extent.2 }

/-- `Texture::map_buffer_copies`: one translated region per input region. -/
def Texture.map_buffer_copies (self : Texture) (map_extent : MapExtent)
    (map_subresource_layers : MapSubresourceLayers)
    (regions : List BufferTextureCopy) : List VkBufferImageCopy :=
  regions.map (self.map_buffer_copy map_extent map_subresource_layers)

/-- `super::CommandEncoder`'s pool state: the active buffer (null sentinel
when none), the discarded list and the free list. The raw pool and device
handles carry no pool-accounting state and are omitted. -/
structure CommandEncoder where
  active : Nat
  discarded : List Nat
  free : List Nat
  deriving DecidableEq

/-- `Vec::pop().unwrap()`: removes and returns the last element. On `[]` the
source panics; its one call site is reached only after free is known or made
nonempty (a successful allocation appends `ALLOCATION_GRANULARITY > 0`
buffers), so the `[]` case is dead there and this model returns the null
handle. -/
def vecPop (l : List Nat) : List Nat × Nat :=
  (l.dropLast, l.getLastD nullBuffer)

/-- The native `allocate_command_buffers` returning `count` fresh handles
`next, next + 1, ...`. -/
def allocate_command_buffers (next count : Nat) : List Nat :=
  (List.range count).map (next + ·)

/-- `begin_encoding` (command.rs lines 42-59). `alloc_result` /
`begin_result` are the outcomes of the native `allocate_command_buffers`
and `begin_command_buffer` calls; `next` is the first fresh handle the
device returns. Note the source order: `free.pop()` mutates the free list
before `begin_command_buffer` can fail, so on a begin failure the popped
handle sits in no list. The begin call uses the one-time-submit flag. -/
def CommandEncoder.begin_encoding (s : CommandEncoder) (next : Nat)
    (alloc_result begin_result : Option DeviceError) :
    CommandEncoder × Option DeviceError :=
  match (if s.free.isEmpty then alloc_result else none) with
  | some e => (s, some e)
  | none =>
    let s1 :=
      if s.free.isEmpty then
        { s with free := s.free ++ allocate_command_buffers next ALLOCATION_GRANULARITY }
      else s
    let popped := vecPop s1.free
    let s2 := { s1 with free := popped.1 }
    match begin_result with
    | some e => (s2, some e)
    | none => ({ s2 with active := popped.2 }, none)

/-- `end_encoding` (command.rs lines 61-66): `active` is cleared first, then
the native `end_command_buffer` runs; on failure the handle is in no list
and is not returned to the caller either. -/
def CommandEncoder.end_encoding (s : CommandEncoder) (end_result : Option DeviceError) :
    CommandEncoder × Except DeviceError Nat :=
  let raw := s.active
  let s1 := { s with active := nullBuffer }
  match end_result with
  | some e => (s1, Except.error e)
  | none => (s1, Except.ok raw)

/-- `discard_encoding` (command.rs lines 68-71). -/
def CommandEncoder.discard_encoding (s : CommandEncoder) : CommandEncoder :=
  { s with discarded := s.discarded ++ [s.active], active := nullBuffer }

/-- `reset_all` (command.rs lines 73-84): free gains the returned buffers,
then the drained discarded list. The native `reset_command_pool` result is
discarded with `let _ =` and the method returns `()`; the second component
here is what the caller sees of `reset_result` — always `none`. -/
def CommandEncoder.reset_all (s : CommandEncoder) (cmd_bufs : List Nat)
    (reset_result : Option DeviceError) : CommandEncoder × Option DeviceError :=
  let s1 := { s with free := s.free ++ cmd_bufs ++ s.discarded, discarded := [] }
  let _ := reset_result
  (s1, none)

/-- The spec-side accumulation (§4.2 step 3): the OR of the translated
source stage masks over a whole batch — the value the `move` closure in
`transition_buffers` accumulates into its captured copy of `src_stages`. -/
def accumulated_src_stages (f : BufferUsageToBarrier) (barriers : List BufferBarrier) : Nat :=
  barriers.foldl (fun acc bar => acc ||| (f bar.usage.start).1) 0

/-- Destination-side OR accumulation over a buffer-barrier batch. -/
def accumulated_dst_stages (f : BufferUsageToBarrier) (barriers : List BufferBarrier) : Nat :=
  barriers.foldl (fun acc bar => acc ||| (f bar.usage.«end»).1) 0

/-- Source-side OR accumulation over a texture-barrier batch. -/
def accumulated_texture_src_stages (f : TextureUsageToBarrier)
    (barriers : List TextureBarrier) : Nat :=
  barriers.foldl (fun acc bar => acc ||| (f bar.usage.start).1) 0

/-- Destination-side OR accumulation over a texture-barrier batch. -/
def accumulated_texture_dst_stages (f : TextureUsageToBarrier)
    (barriers : List TextureBarrier) : Nat :=
  barriers.foldl (fun acc bar => acc ||| (f bar.usage.«end»).1) 0

/-- `transition_buffers` (command.rs lines 86-117). `src_stages` /
`dst_stages` are `Copy` bitflags captured BY VALUE by the `move` closure
handed to `Iterator::map`; the `|=` inside the closure mutates the
closure's private copies, so the outer bindings passed to
`cmd_pipeline_barrier` keep their initial `empty()` value — the emitted
call carries empty stage masks. Each barrier is built with the buffer
handle, `size: vk::WHOLE_SIZE` (offset left at its builder default 0) and
the two translated access masks. -/
def CommandEncoder.transition_buffers (s : CommandEncoder) (f : BufferUsageToBarrier)
    (barriers : List BufferBarrier) : CommandEncoder × PipelineBarrierCall :=
  let src_stages : Nat := 0
  let dst_stages : Nat := 0
  let vk_barriers := barriers.map fun bar =>
    { src_access_mask := (f bar.usage.start).2
      dst_access_mask := (f bar.usage.«end»).2
      buffer := bar.buffer.raw
      offset := 0
      size := WHOLE_SIZE : VkBufferMemoryBarrier }
  (s, { command_buffer := s.active
        src_stage_mask := src_stages
        dst_stage_mask := dst_stages
        memory_barriers := []
        buffer_barriers := vk_barriers
        image_barriers := [] })

/-- `transition_textures` (command.rs lines 119-155); the same `move`
closure capture applies to its `src_stages` / `dst_stages`. Each image
barrier carries its translated access masks, the derived old/new layouts
and the translated subresource range. -/
def CommandEncoder.transition_textures (s : CommandEncoder) (f : TextureUsageToBarrier)
    (map_subresource_range : MapSubresourceRange)
    (barriers : List TextureBarrier) : CommandEncoder × PipelineBarrierCall :=
  let src_stages : Nat := 0
  let dst_stages : Nat := 0
  let vk_barriers := barriers.map fun bar =>
    { src_access_mask := (f bar.usage.start).2
      dst_access_mask := (f bar.usage.«end»).2
      old_layout := derive_image_layout bar.usage.start
      new_layout := derive_image_layout bar.usage.«end»
      image := bar.texture.raw
      subresource_range := map_subresource_range bar.range bar.texture.aspects :
      VkImageMemoryBarrier }
  (s, { command_buffer := s.active
        src_stage_mask := src_stages
        dst_stage_mask := dst_stages
        memory_barriers := []
        buffer_barriers := []
        image_barriers := vk_barriers })

/-- The arguments of `cmd_fill_buffer`. -/
structure FillBufferCall where
  command_buffer : Nat
  buffer : Nat
  offset : Nat
  size : Nat
  data : Nat
  deriving DecidableEq

/-- `crate::MemoryRange` = `Range<wgt::BufferAddress>` (`u64`). -/
abbrev MemoryRange := RustRange Nat

/-- `fill_buffer` (command.rs lines 157-165): offset `range.start`, size
`range.end - range.start` (`u64` subtraction, which panics on underflow in
the source; truncated subtraction here) and data
`(value as u32) * 0x01010101` computed in `u32`. -/
def CommandEncoder.fill_buffer (s : CommandEncoder) (buffer : Buffer)
    (range : MemoryRange) (value : Nat) : CommandEncoder × FillBufferCall :=
  (s, { command_buffer := s.active
        buffer := buffer.raw
        offset := range.start
        size := range.«end» - range.start
        data := value * 0x01010101 % 2 ^ 32 })

/-- `vk::BufferCopy`. -/
structure VkBufferCopy where
  src_offset : Nat
  dst_offset : Nat
  size : Nat
  deriving DecidableEq

/-- The arguments of `cmd_copy_buffer`. -/
structure CopyBufferCall where
  command_buffer : Nat
  src_buffer : Nat
  dst_buffer : Nat
  regions : List VkBufferCopy
  deriving DecidableEq

/-- `copy_buffer_to_buffer` (command.rs lines 167-186). -/
def CommandEncoder.copy_buffer_to_buffer (s : CommandEncoder) (src dst : Buffer)
    (regions : List BufferCopy) : CommandEncoder × CopyBufferCall :=
  let vk_regions := regions.map fun r =>
    { src_offset := r.src_offset
      dst_offset := r.dst_offset
      size := r.size : VkBufferCopy }
  (s, { command_buffer := s.active
        src_buffer := src.raw
        dst_buffer := dst.raw
        regions := vk_regions })

/-- `vk::ImageCopy`. -/
structure VkImageCopy where
  src_subresource : VkImageSubresourceLayers
  src_offset : VkOffset3D
  dst_subresource : VkImageSubresourceLayers
  dst_offset : VkOffset3D
  extent : VkExtent3D
  deriving DecidableEq

/-- The arguments of `cmd_copy_image`. -/
structure CopyImageCall where
  command_buffer : Nat
  src_image : Nat
  src_image_layout : VkImageLayout
  dst_image : Nat
  dst_image_layout : VkImageLayout
  regions : List VkImageCopy
  deriving DecidableEq

/-- `copy_texture_to_texture` (command.rs lines 188-224): the source layout
is derived from `src_usage`, the destination layout is the constant
`DST_IMAGE_LAYOUT`. -/
def CommandEncoder.copy_texture_to_texture (s : CommandEncoder)
    (map_extent : MapExtent) (map_subresource_layers : MapSubresourceLayers)
    (src : Texture) (src_usage : TextureUse) (dst : Texture)
    (regions : List TextureCopy) : CommandEncoder × CopyImageCall :=
  let src_layout := derive_image_layout src_usage
  let vk_regions := regions.map fun r =>
    let lc_extent := map_extent r.size src.dim
    let src_so := map_subresource_layers r.src_base src.dim src.aspects lc_extent.1
    let dst_so := map_subresource_layers r.dst_base dst.dim dst.aspects lc_extent.1
    { src_subresource := src_so.1
      src_offset := src_so.2
      dst_subresource := dst_so.1
      dst_offset := dst_so.2
      extent := lc_extent.2 : VkImageCopy }
  (s, { command_buffer := s.active
        src_image := src.raw
        src_image_layout := src_layout
        dst_image := dst.raw
        dst_image_layout := DST_IMAGE_LAYOUT
        regions := vk_regions })

/-- The arguments of `cmd_copy_buffer_to_image`. -/
structure CopyBufferToImageCall where
  command_buffer : Nat
  src_buffer : Nat
  dst_image : Nat
  dst_image_layout : VkImageLayout
  regions : List VkBufferImageCopy
  deriving DecidableEq

/-- `copy_buffer_to_texture` (command.rs lines 226-245). -/
def CommandEncoder.copy_buffer_to_texture (s : CommandEncoder)
    (map_extent : MapExtent) (map_subresource_layers : MapSubresourceLayers)
    (src : Buffer) (dst : Texture) (regions : List BufferTextureCopy) :
    CommandEncoder × CopyBufferToImageCall :=
  let vk_regions := dst.map_buffer_copies map_extent map_subresource_layers regions
  (s, { command_buffer := s.active
        src_buffer := src.raw
        dst_image := dst.raw
        dst_image_layout := DST_IMAGE_LAYOUT
        regions := vk_regions })

/-- The arguments of `cmd_copy_image_to_buffer`. -/
structure CopyImageToBufferCall where
  command_buffer : Nat
  src_image : Nat
  src_image_layout : VkImageLayout
  dst_buffer : Nat
  regions : List VkBufferImageCopy
  deriving DecidableEq

/-- `copy_texture_to_buffer` (command.rs lines 247-268). -/
def CommandEncoder.copy_texture_to_buffer (s : CommandEncoder)
    (map_extent : MapExtent) (map_subresource_layers : MapSubresourceLayers)
    (src : Texture) (src_usage : TextureUse) (dst : Buffer)
    (regions : List BufferTextureCopy) : CommandEncoder × CopyImageToBufferCall :=
  let src_layout := derive_image_layout src_usage
  let vk_regions := src.map_buffer_copies map_extent map_subresource_layers regions
  (s, { command_buffer := s.active
        src_image := src.raw
        src_image_layout := src_layout
        dst_buffer := dst.raw
        regions := vk_regions })

/-- Ghost trace state for the pool-accounting invariant: the encoder plus
bookkeeping of the next fresh native handle, every handle ever allocated,
and the handles currently held externally (sealed buffers returned by
`end_encoding` and not yet passed back to `reset_all`). -/
structure TraceState where
  enc : CommandEncoder
  next_handle : Nat
  allocated : List Nat
  external : List Nat
  deriving DecidableEq

/-- One lifecycle call, carrying the outcome of each native call it makes;
`resetAll` also carries the recorded buffers the caller passes back. -/
inductive Event where
  | beginEncoding (alloc_result begin_result : Option DeviceError)
  | endEncoding (end_result : Option DeviceError)
  | discardEncoding
  | resetAll (returned : List Nat) (reset_result : Option DeviceError)
  deriving DecidableEq

/-- One lifecycle step: the encoder evolves by the embedded operation, the
ghost fields record allocation and external ownership. An allocation
happens exactly when the free list was empty and the native allocation
succeeded; a handle goes external exactly when `end_encoding` returns it. -/
def step (t : TraceState) : Event → TraceState
  | .beginEncoding a b =>
    let allocates := t.enc.free.isEmpty && a.isNone
    { enc := (t.enc.begin_encoding t.next_handle a b).1
      next_handle := if allocates then t.next_handle + ALLOCATION_GRANULARITY else t.next_handle
      allocated :=
        if allocates then
          t.allocated ++ allocate_command_buffers t.next_handle ALLOCATION_GRANULARITY
        else t.allocated
      external := t.external }
  | .endEncoding e =>
    let r := t.enc.end_encoding e
    { t with
      enc := r.1
      external :=
        match r.2 with
        | .ok raw => t.external ++ [raw]
        | .error _ => t.external }
  | .discardEncoding => { t with enc := t.enc.discard_encoding }
  | .resetAll returned r =>
    { t with enc := (t.enc.reset_all returned r).1, external := t.external.diff returned }

/-- Run a sequence of lifecycle events. -/
def run (t : TraceState) : List Event → TraceState
  | [] => t
  | e :: es => run (step t e) es

/-- `l` is a sub-multiset of `m`: every element count in `l` is dominated. -/
def subBag (l m : List Nat) : Bool :=
  l.all fun x => decide (l.count x ≤ m.count x)

/-- Caller-contract validity of one event (spec §4.1 / §7 preconditions):
begin only with no active buffer, end/discard only with one, and reset
returning only buffers actually held externally. -/
def validEvent (t : TraceState) : Event → Bool
  | .beginEncoding _ _ => t.enc.active == nullBuffer
  | .endEncoding _ => t.enc.active != nullBuffer
  | .discardEncoding => t.enc.active != nullBuffer
  | .resetAll returned _ => subBag returned t.external

/-- A whole event sequence respects the caller contract from state `t` on. -/
def validFrom (t : TraceState) : List Event → Bool
  | [] => true
  | e :: es => validEvent t e && validFrom (step t e) es

/-- Fresh encoder over an empty pool. -/
def initState : TraceState :=
  { enc := { active := nullBuffer, discarded := [], free := [] }
    next_handle := 1
    allocated := []
    external := [] }

/-- The active slot as a zero-or-one element list. -/
def activeList (s : CommandEncoder) : List Nat :=
  if s.active = nullBuffer then [] else [s.active]

/-- Pool accounting (spec §8): the multiset {free} + {discarded} + {active}
+ {externally held} equals the multiset of all handles ever allocated —
equivalently, {free} + {discarded} + {active} is the allocated multiset
minus the externally held one, nothing lost, nothing duplicated. -/
def accounting (t : TraceState) : Prop :=
  (t.enc.free : Multiset Nat) + (t.enc.discarded : Multiset Nat)
      + (activeList t.enc : Multiset Nat) + (t.external : Multiset Nat)
    = (t.allocated : Multiset Nat)

/-- Events whose native begin-recording / end-recording calls succeed
(allocation and pool-reset failures are still allowed). -/
def goodEvent : Event → Bool
  | .beginEncoding _ b => b.isNone
  | .endEncoding e => e.isNone
  | .discardEncoding => true
  | .resetAll _ _ => true

/-- Handle sanity: the null sentinel sits in no list and fresh handles are
nonzero (the device never returns the null handle). -/
def wellFormed (t : TraceState) : Prop :=
  nullBuffer ∉ t.enc.free ∧ nullBuffer ∉ t.enc.discarded ∧ nullBuffer ∉ t.external
    ∧ 1 ≤ t.next_handle

/-! Concrete fixtures used by witnesses and counterexamples. -/

/-- A fresh encoder with a (dummy) active buffer handle 7 and empty lists. -/
def exEncoder : CommandEncoder := { active := 7, discarded := [], free := [] }

/-- A sample buffer-usage translation: usage `u` maps to stage mask `4096 * u`
and access mask `2 * u`. -/
def exTranslate : BufferUsageToBarrier := fun u => (4096 * u, 2 * u)

/-- One buffer barrier: buffer 42 transitioning from usage 1 to usage 2. -/
def exBufferBarrier : BufferBarrier :=
  { buffer := { raw := 42 }, usage := { start := 1, «end» := 2 } }

/-- A sample texture-usage translation. -/
def exTextureTranslate : TextureUsageToBarrier := fun u =>
  match u with
  | .copyDst => (4096, 4096)
  | .storageRead => (2048, 32)
  | _ => (1, 1)

/-- A sample subresource-range translation. -/
def exSubresourceRange : MapSubresourceRange := fun _ _ =>
  { aspect_mask := 1, base_mip_level := 0, level_count := 1
    base_array_layer := 0, layer_count := 1 }

/-- A 4-bytes-per-block, 1x1-block format (e.g. RGBA8). -/
def exFormatInfo : FormatInfo := { block_size := 4, block_dimensions := (1, 1) }

/-- A sample 2D single-plane texture. -/
def exTexture : Texture := { raw := 9, dim := .d2, aspects := 1, format_info := exFormatInfo }

/-- One texture barrier: copy-destination to storage-read over the full range. -/
def exTextureBarrier : TextureBarrier :=
  { texture := exTexture
    range := { base_mip_level := 0, mip_level_count := none
               base_array_layer := 0, array_layer_count := none }
    usage := { start := .copyDst, «end» := .storageRead } }

/-- A sample extent translation. -/
def exMapExtent : MapExtent := fun size _ =>
  (1, { width := size.width, height := size.height, depth := size.depth_or_layers })

/-- A sample subresource-layers translation. -/
def exMapSubresourceLayers : MapSubresourceLayers := fun base _ aspects lc =>
  ({ aspect_mask := aspects, mip_level := base.mip_level
     base_array_layer := base.array_layer, layer_count := lc },
   { x := base.origin_x, y := base.origin_y, z := base.origin_z })

/-- The spec's §8 copy scenario: 256x256 region, `bytes_per_row = 1024`, no
`rows_per_image`. -/
def exRegion : BufferTextureCopy :=
  { buffer_layout := { offset := 0, bytes_per_row := some 1024, rows_per_image := none }
    texture_base := { origin_x := 0, origin_y := 0, origin_z := 0
                      mip_level := 0, array_layer := 0, aspect := 1 }
    size := { width := 256, height := 256, depth_or_layers := 1 } }

/-- The emitted barrier for `exBufferBarrier` under `exTranslate`. -/
def exVkBufferBarrier : VkBufferMemoryBarrier :=
  { src_access_mask := 2, dst_access_mask := 4, buffer := 42, offset := 0, size := WHOLE_SIZE }

/-- A lifecycle trace with no native failures: begin, end, return the sealed
buffer through reset, begin again, discard. -/
def exTrace : List Event :=
  [Event.beginEncoding none none, Event.endEncoding none,
   Event.resetAll [16] none, Event.beginEncoding none none, Event.discardEncoding]

/-- A lifecycle trace in which the native begin-recording call fails. -/
def exBadTrace : List Event := [Event.beginEncoding none (some DeviceError.deviceLost)]

/-! Theorems. -/

/-- C6: the image layout derived for the copy-destination usage state is
transfer-destination-optimal, and that is exactly the constant
`DST_IMAGE_LAYOUT` the encoder passes as the destination image layout in
every buffer-to-texture and texture-to-texture copy call. -/
theorem C6_dst_image_layout_consistency :
    derive_image_layout TextureUse.copyDst = VkImageLayout.transferDstOptimal
  ∧ DST_IMAGE_LAYOUT = VkImageLayout.transferDstOptimal
  ∧ (∀ (s : CommandEncoder) (me : MapExtent) (msl : MapSubresourceLayers)
      (src : Buffer) (dst : Texture) (regions : List BufferTextureCopy),
      (s.copy_buffer_to_texture me msl src dst regions).2.dst_image_layout = DST_IMAGE_LAYOUT)
  ∧ (∀ (s : CommandEncoder) (me : MapExtent) (msl : MapSubresourceLayers)
      (src : Texture) (src_usage : TextureUse) (dst : Texture) (regions : List TextureCopy),
      (s.copy_texture_to_texture me msl src src_usage dst regions).2.dst_image_layout
        = DST_IMAGE_LAYOUT) :=
  ⟨rfl, rfl, fun _ _ _ _ _ _ => rfl, fun _ _ _ _ _ _ _ => rfl⟩

/-- C7: for every byte value `v`, `fill_buffer` passes the native fill call
the 32-bit pattern `v * 0x01010101` — whose four bytes each equal `v` and
which does not overflow `u32` — and the fill size `range.end - range.start`. -/
theorem C7_fill_buffer_pattern (s : CommandEncoder) (buffer : Buffer)
    (range : MemoryRange) (v : Nat) (hv : v < 256) :
    (s.fill_buffer buffer range v).2.data = v * 0x01010101
  ∧ v * 0x01010101 < 2 ^ 32
  ∧ (∀ i, i < 4 → (s.fill_buffer buffer range v).2.data / 2 ^ (8 * i) % 2 ^ 8 = v)
  ∧ (s.fill_buffer buffer range v).2.size = range.«end» - range.start := by
  have h32 : (2 : Nat) ^ 32 = 4294967296 := by norm_num
  have hP : v * 0x01010101 < 2 ^ 32 := by rw [h32]; omega
  have hdata : (s.fill_buffer buffer range v).2.data = v * 0x01010101 := by
    show v * 0x01010101 % 2 ^ 32 = v * 0x01010101
    exact Nat.mod_eq_of_lt hP
  refine ⟨hdata, hP, ?_, rfl⟩
  have hW3 : v * 0x01010101 = v + 256 * (v + 256 * (v + 256 * v)) := by ring
  have h256 : (0 : Nat) < 256 := by norm_num
  have hd1 : v * 0x01010101 / 256 = v + 256 * (v + 256 * v) := by
    rw [hW3, Nat.add_mul_div_left _ _ h256, Nat.div_eq_of_lt hv, zero_add]
  have hd2 : v * 0x01010101 / 65536 = v + 256 * v := by
    rw [show (65536 : Nat) = 256 * 256 from rfl, ← Nat.div_div_eq_div_mul, hd1,
      Nat.add_mul_div_left _ _ h256, Nat.div_eq_of_lt hv, zero_add]
  have hd3 : v * 0x01010101 / 16777216 = v := by
    rw [show (16777216 : Nat) = 65536 * 256 from rfl, ← Nat.div_div_eq_div_mul, hd2,
      Nat.add_mul_div_left _ _ h256, Nat.div_eq_of_lt hv, zero_add]
  intro i hi
  rw [hdata]
  interval_cases i
  · norm_num
    rw [hW3, Nat.add_mul_mod_self_left, Nat.mod_eq_of_lt hv]
  · norm_num
    rw [hd1, Nat.add_mul_mod_self_left, Nat.mod_eq_of_lt hv]
  · norm_num
    rw [hd2, Nat.add_mul_mod_self_left, Nat.mod_eq_of_lt hv]
  · norm_num
    rw [hd3, Nat.mod_eq_of_lt hv]

/-- C8: each transition or copy operation given an empty batch emits its
single native call with zero barrier/region descriptors; every embedded
operation is a total function, so no input can make it panic. -/
theorem C8_empty_batches_are_noops :
    (∀ (s : CommandEncoder) (f : BufferUsageToBarrier),
      (s.transition_buffers f []).2.buffer_barriers = []
        ∧ (s.transition_buffers f []).2.image_barriers = []
        ∧ (s.transition_buffers f []).2.memory_barriers = [])
  ∧ (∀ (s : CommandEncoder) (f : TextureUsageToBarrier) (msr : MapSubresourceRange),
      (s.transition_textures f msr []).2.image_barriers = []
        ∧ (s.transition_textures f msr []).2.buffer_barriers = []
        ∧ (s.transition_textures f msr []).2.memory_barriers = [])
  ∧ (∀ (s : CommandEncoder) (src dst : Buffer),
      (s.copy_buffer_to_buffer src dst []).2.regions = [])
  ∧ (∀ (s : CommandEncoder) (me : MapExtent) (msl : MapSubresourceLayers)
      (src : Texture) (u : TextureUse) (dst : Texture),
      (s.copy_texture_to_texture me msl src u dst []).2.regions = [])
  ∧ (∀ (s : CommandEncoder) (me : MapExtent) (msl : MapSubresourceLayers)
      (src : Buffer) (dst : Texture),
      (s.copy_buffer_to_texture me msl src dst []).2.regions = [])
  ∧ (∀ (s : CommandEncoder) (me : MapExtent) (msl : MapSubresourceLayers)
      (src : Texture) (u : TextureUse) (dst : Buffer),
      (s.copy_texture_to_buffer me msl src u dst []).2.regions = []) :=
  ⟨fun _ _ => ⟨rfl, rfl, rfl⟩, fun _ _ _ => ⟨rfl, rfl, rfl⟩, fun _ _ _ => rfl,
   fun _ _ _ _ _ _ => rfl, fun _ _ _ _ _ => rfl, fun _ _ _ _ _ _ => rfl⟩

/-- C9: every native buffer memory barrier emitted by `transition_buffers`
covers the entire buffer: size `vk::WHOLE_SIZE` with offset 0, whatever the
requested transition. -/
theorem C9_buffer_barriers_whole_size (s : CommandEncoder) (f : BufferUsageToBarrier)
    (barriers : List BufferBarrier) (b : VkBufferMemoryBarrier)
    (hb : b ∈ (s.transition_buffers f barriers).2.buffer_barriers) :
    b.size = WHOLE_SIZE ∧ b.offset = 0 := by
  simp only [CommandEncoder.transition_buffers, List.mem_map] at hb
  obtain ⟨bar, _, rfl⟩ := hb
  exact ⟨rfl, rfl⟩

/-- Witness for C9 at a concrete barrier batch. -/
theorem C9_buffer_barriers_whole_size_witness :
    (exVkBufferBarrier ∈ (exEncoder.transition_buffers exTranslate
        [exBufferBarrier]).2.buffer_barriers)
  ∧ exVkBufferBarrier.size = WHOLE_SIZE ∧ exVkBufferBarrier.offset = 0 :=
  ⟨by decide, C9_buffer_barriers_whole_size exEncoder exTranslate [exBufferBarrier]
      exVkBufferBarrier (by decide)⟩

/-- C10: recording operations (transitions, the four copies, fill) leave the
pool state — free list, discarded list, active handle — unchanged. -/
theorem C10_recording_preserves_pool_state :
    (∀ (s : CommandEncoder) (f : BufferUsageToBarrier) (bs : List BufferBarrier),
      (s.transition_buffers f bs).1.free = s.free
        ∧ (s.transition_buffers f bs).1.discarded = s.discarded
        ∧ (s.transition_buffers f bs).1.active = s.active)
  ∧ (∀ (s : CommandEncoder) (f : TextureUsageToBarrier) (msr : MapSubresourceRange)
      (bs : List TextureBarrier),
      (s.transition_textures f msr bs).1.free = s.free
        ∧ (s.transition_textures f msr bs).1.discarded = s.discarded
        ∧ (s.transition_textures f msr bs).1.active = s.active)
  ∧ (∀ (s : CommandEncoder) (buffer : Buffer) (range : MemoryRange) (v : Nat),
      (s.fill_buffer buffer range v).1.free = s.free
        ∧ (s.fill_buffer buffer range v).1.discarded = s.discarded
        ∧ (s.fill_buffer buffer range v).1.active = s.active)
  ∧ (∀ (s : CommandEncoder) (src dst : Buffer) (rs : List BufferCopy),
      (s.copy_buffer_to_buffer src dst rs).1.free = s.free
        ∧ (s.copy_buffer_to_buffer src dst rs).1.discarded = s.discarded
        ∧ (s.copy_buffer_to_buffer src dst rs).1.active = s.active)
  ∧ (∀ (s : CommandEncoder) (me : MapExtent) (msl : MapSubresourceLayers)
      (src : Texture) (u : TextureUse) (dst : Texture) (rs : List TextureCopy),
      (s.copy_texture_to_texture me msl src u dst rs).1.free = s.free
        ∧ (s.copy_texture_to_texture me msl src u dst rs).1.discarded = s.discarded
        ∧ (s.copy_texture_to_texture me msl src u dst rs).1.active = s.active)
  ∧ (∀ (s : CommandEncoder) (me : MapExtent) (msl : MapSubresourceLayers)
      (src : Buffer) (dst : Texture) (rs : List BufferTextureCopy),
      (s.copy_buffer_to_texture me msl src dst rs).1.free = s.free
        ∧ (s.copy_buffer_to_texture me msl src dst rs).1.discarded = s.discarded
        ∧ (s.copy_buffer_to_texture me msl src dst rs).1.active = s.active)
  ∧ (∀ (s : CommandEncoder) (me : MapExtent) (msl : MapSubresourceLayers)
      (src : Texture) (u : TextureUse) (dst : Buffer) (rs : List BufferTextureCopy),
      (s.copy_texture_to_buffer me msl src u dst rs).1.free = s.free
        ∧ (s.copy_texture_to_buffer me msl src u dst rs).1.discarded = s.discarded
        ∧ (s.copy_texture_to_buffer me msl src u dst rs).1.active = s.active) :=
  ⟨fun _ _ _ => ⟨rfl, rfl, rfl⟩, fun _ _ _ _ => ⟨rfl, rfl, rfl⟩,
   fun _ _ _ _ => ⟨rfl, rfl, rfl⟩, fun _ _ _ _ => ⟨rfl, rfl, rfl⟩,
   fun _ _ _ _ _ _ _ => ⟨rfl, rfl, rfl⟩, fun _ _ _ _ _ _ => ⟨rfl, rfl, rfl⟩,
   fun _ _ _ _ _ _ _ => ⟨rfl, rfl, rfl⟩⟩

/-- C1 fails on the code: the `move` closures in `transition_buffers` and
`transition_textures` accumulate the OR of the translated stage masks only
into their captured private copies of the `Copy` bitflags, so the single
`cmd_pipeline_barrier` call receives the outer, never-mutated empty masks
instead of the accumulated ones. Evaluated here at a one-barrier batch whose
translated stage masks are nonzero. -/
theorem C1_stage_masks_lost :
    (exEncoder.transition_buffers exTranslate [exBufferBarrier]).2.src_stage_mask = 0
  ∧ (exEncoder.transition_buffers exTranslate [exBufferBarrier]).2.dst_stage_mask = 0
  ∧ accumulated_src_stages exTranslate [exBufferBarrier] = 4096
  ∧ accumulated_dst_stages exTranslate [exBufferBarrier] = 8192
  ∧ (exEncoder.transition_buffers exTranslate [exBufferBarrier]).2.src_stage_mask
      ≠ accumulated_src_stages exTranslate [exBufferBarrier]
  ∧ (exEncoder.transition_textures exTextureTranslate exSubresourceRange
      [exTextureBarrier]).2.src_stage_mask = 0
  ∧ (exEncoder.transition_textures exTextureTranslate exSubresourceRange
      [exTextureBarrier]).2.dst_stage_mask = 0
  ∧ accumulated_texture_src_stages exTextureTranslate [exTextureBarrier] = 4096
  ∧ accumulated_texture_dst_stages exTextureTranslate [exTextureBarrier] = 2048
  ∧ (exEncoder.transition_textures exTextureTranslate exSubresourceRange
      [exTextureBarrier]).2.src_stage_mask
      ≠ accumulated_texture_src_stages exTextureTranslate [exTextureBarrier] := by
  decide

/-- C3 as stated is false: `reset_all` invokes the native pool-level reset
with `let _ = ...` and returns `()`, so a reset failure is discarded, not
propagated. Evaluated at a failing native reset. -/
theorem C3_counterexample :
    (exEncoder.reset_all [] (some DeviceError.deviceLost)).2 = none
  ∧ (exEncoder.reset_all [] (some DeviceError.deviceLost)).2
      ≠ some DeviceError.deviceLost :=
  ⟨rfl, by decide⟩

/-- C3 amended: native failures of `begin_encoding`'s allocation and begin
calls and of `end_encoding`'s end call are surfaced to the caller unmodified
as `DeviceError` (each operation makes each native call at most once, so
nothing is retried); `reset_all`, whose interface returns nothing, discards
the native pool-reset result. -/
theorem C3_error_propagation (s : CommandEncoder) (next : Nat) (e : DeviceError)
    (b : Option DeviceError) :
    (s.free = [] → (s.begin_encoding next (some e) b).2 = some e)
  ∧ (s.begin_encoding next none (some e)).2 = some e
  ∧ (s.end_encoding (some e)).2 = Except.error e
  ∧ (∀ (cmd_bufs : List Nat) (r : Option DeviceError),
      (s.reset_all cmd_bufs r).2 = none) := by
  refine ⟨?_, ?_, rfl, fun _ _ => rfl⟩
  · intro h
    simp [CommandEncoder.begin_encoding, h]
  · by_cases h : s.free.isEmpty <;> simp [CommandEncoder.begin_encoding, h]

/-- Witness for C3 at a concrete encoder with an empty free list. -/
theorem C3_error_propagation_witness :
    exEncoder.free = []
  ∧ (exEncoder.begin_encoding 1 (some DeviceError.deviceLost) none).2
      = some DeviceError.deviceLost :=
  ⟨rfl, (C3_error_propagation exEncoder 1 DeviceError.deviceLost none).1 rfl⟩

/-- `Vec::pop` on a nonempty vector: removes and returns the last element. -/
theorem vecPop_concat (l : List Nat) (a : Nat) : vecPop (l ++ [a]) = (l, a) := by
  simp [vecPop, List.getLastD_concat]

/-- One allocation batch splits as its first 15 handles plus the last one. -/
theorem allocate_split (next : Nat) :
    allocate_command_buffers next ALLOCATION_GRANULARITY
      = allocate_command_buffers next 15 ++ [next + 15] := by
  have h16 : List.range 16 = List.range 15 ++ [15] := by rfl
  simp [allocate_command_buffers, ALLOCATION_GRANULARITY, h16]

/-- Evaluation of `begin_encoding` on an empty free list with both native
calls succeeding. -/
theorem begin_encoding_empty_free (s : CommandEncoder) (next : Nat)
    (hfree : s.free = []) :
    s.begin_encoding next none none
      = ({ active := next + 15, discarded := s.discarded
           free := allocate_command_buffers next 15 }, none) := by
  simp [CommandEncoder.begin_encoding, hfree, allocate_split, vecPop_concat]

/-- Evaluation of `begin_encoding` on a nonempty free list with a succeeding
begin call: the last free buffer becomes active, the allocation outcome is
irrelevant because no allocation happens. -/
theorem begin_encoding_nonempty_free (act : Nat) (disc l : List Nat) (x next : Nat)
    (a : Option DeviceError) :
    CommandEncoder.begin_encoding ⟨act, disc, l ++ [x]⟩ next a none
      = (⟨x, disc, l⟩, none) := by
  simp [CommandEncoder.begin_encoding, vecPop_concat]

/-- Evaluation of `begin_encoding` on an empty free list when the native
allocation fails: the state is untouched and the error is returned. -/
theorem begin_encoding_alloc_fail (act : Nat) (disc : List Nat) (next : Nat)
    (e : DeviceError) (b : Option DeviceError) :
    CommandEncoder.begin_encoding ⟨act, disc, []⟩ next (some e) b
      = (⟨act, disc, []⟩, some e) := by
  simp [CommandEncoder.begin_encoding]

/-- C4: starting from an empty free list, `begin_encoding` allocates exactly
one batch of `ALLOCATION_GRANULARITY = 16` native buffers, appends it to
free, pops one (the last), begins it with the one-time-submit begin call and
sets it active: afterwards exactly one buffer is active, 15 remain free, and
free plus the active buffer is exactly the allocated batch; a native
allocation or begin failure is returned as that same `DeviceError`. -/
theorem C4_begin_from_empty_pool (s : CommandEncoder) (next : Nat)
    (e1 e2 : DeviceError) (b : Option DeviceError) (hfree : s.free = []) :
    (s.begin_encoding next none none).2 = none
  ∧ (s.begin_encoding next none none).1.active = next + 15
  ∧ (s.begin_encoding next none none).1.free.length = ALLOCATION_GRANULARITY - 1
  ∧ (s.begin_encoding next none none).1.free
      ++ [(s.begin_encoding next none none).1.active]
      = allocate_command_buffers next ALLOCATION_GRANULARITY
  ∧ (s.begin_encoding next none none).1.discarded = s.discarded
  ∧ s.begin_encoding next (some e1) b = (s, some e1)
  ∧ (s.begin_encoding next none (some e2)).2 = some e2 := by
  have key := begin_encoding_empty_free s next hfree
  refine ⟨?_, ?_, ?_, ?_, ?_, ?_, ?_⟩
  · simp only [key]
  · simp only [key]
  · simp only [key]
    simp [allocate_command_buffers, ALLOCATION_GRANULARITY]
  · simp only [key]
    exact (allocate_split next).symm
  · simp only [key]
  · simp [CommandEncoder.begin_encoding, hfree]
  · simp [CommandEncoder.begin_encoding, hfree]

/-- Witness for C4: one begin on a fresh encoder over an empty pool. -/
theorem C4_begin_from_empty_pool_witness :
    exEncoder.free = []
  ∧ (exEncoder.begin_encoding 1 none none).2 = none
  ∧ (exEncoder.begin_encoding 1 none none).1.active = 16
  ∧ (exEncoder.begin_encoding 1 none none).1.free.length = 15 := by
  have h := C4_begin_from_empty_pool exEncoder 1 DeviceError.deviceLost
    DeviceError.deviceLost none rfl
  exact ⟨rfl, h.1, by rw [h.2.1], by rw [h.2.2.1]; decide⟩

/-- C5: the pitch math of the buffer-texture copy-region translation. With
`bytes_per_row` set, `buffer_row_length` is `bytes_per_row / block_size`
and, whenever `bytes_per_row` is a multiple of the block size, multiplying
back recovers it; with it unset, `buffer_row_length` is exactly 0. Likewise
`buffer_image_height` is `rows_per_image * block_height` when set (within
`u32` range) and exactly 0 when unset. The batch translation maps the
per-region translation, and the spec's 1024-bytes-per-row, block-size-4,
no-rows-per-image scenario yields `buffer_row_length = 256`,
`buffer_image_height = 0`. -/
theorem C5_pitch_round_trip (me : MapExtent) (msl : MapSubresourceLayers)
    (tex : Texture) (r : BufferTextureCopy)
    (_hbs : 0 < tex.format_info.block_size) :
    (∀ bpr, r.buffer_layout.bytes_per_row = some bpr →
      (tex.map_buffer_copy me msl r).buffer_row_length
        = bpr / tex.format_info.block_size)
  ∧ (∀ bpr, r.buffer_layout.bytes_per_row = some bpr →
      tex.format_info.block_size ∣ bpr →
      (tex.map_buffer_copy me msl r).buffer_row_length * tex.format_info.block_size
        = bpr)
  ∧ (r.buffer_layout.bytes_per_row = none →
      (tex.map_buffer_copy me msl r).buffer_row_length = 0)
  ∧ (∀ rpi, r.buffer_layout.rows_per_image = some rpi →
      rpi * tex.format_info.block_dimensions.2 < 2 ^ 32 →
      (tex.map_buffer_copy me msl r).buffer_image_height
        = rpi * tex.format_info.block_dimensions.2)
  ∧ (r.buffer_layout.rows_per_image = none →
      (tex.map_buffer_copy me msl r).buffer_image_height = 0)
  ∧ tex.map_buffer_copies me msl [r] = [tex.map_buffer_copy me msl r]
  ∧ (∀ (tex2 : Texture) (r2 : BufferTextureCopy),
      tex2.format_info.block_size = 4 →
      r2.buffer_layout.bytes_per_row = some 1024 →
      r2.buffer_layout.rows_per_image = none →
      (tex2.map_buffer_copy me msl r2).buffer_row_length = 256
        ∧ (tex2.map_buffer_copy me msl r2).buffer_image_height = 0) := by
  refine ⟨?_, ?_, ?_, ?_, ?_, rfl, ?_⟩
  · intro bpr h
    simp [Texture.map_buffer_copy, h]
  · intro bpr h hdvd
    have h1 : (tex.map_buffer_copy me msl r).buffer_row_length
        = bpr / tex.format_info.block_size := by simp [Texture.map_buffer_copy, h]
    rw [h1, Nat.div_mul_cancel hdvd]
  · intro h
    simp [Texture.map_buffer_copy, h]
  · intro rpi h hlt
    have hlt2 : rpi * tex.format_info.block_dimensions.2 < 4294967296 := by
      calc rpi * tex.format_info.block_dimensions.2 < 2 ^ 32 := hlt
        _ = 4294967296 := by norm_num
    simp [Texture.map_buffer_copy, h, Nat.mod_eq_of_lt hlt2]
  · intro h
    simp [Texture.map_buffer_copy, h]
  · intro tex2 r2 hb hbpr hrpi
    constructor
    · simp [Texture.map_buffer_copy, hbpr, hb]
    · simp [Texture.map_buffer_copy, hrpi]

/-- Witness for C5 at the spec's §8 copy scenario. -/
theorem C5_pitch_round_trip_witness :
    0 < exTexture.format_info.block_size
  ∧ (exTexture.map_buffer_copy exMapExtent exMapSubresourceLayers
      exRegion).buffer_row_length = 256
  ∧ (exTexture.map_buffer_copy exMapExtent exMapSubresourceLayers
      exRegion).buffer_image_height = 0 := by
  have h := C5_pitch_round_trip exMapExtent exMapSubresourceLayers exTexture exRegion
    (by decide)
  refine ⟨by decide, ?_, h.2.2.2.2.1 rfl⟩
  have h1 := h.1 1024 rfl
  rw [h1]
  decide

/-- A `subBag` certificate gives the corresponding multiset inequality. -/
theorem subBag_le {l m : List Nat} (h : subBag l m = true) :
    (l : Multiset Nat) ≤ (m : Multiset Nat) := by
  rw [Multiset.le_iff_count]
  intro a
  rw [Multiset.coe_count, Multiset.coe_count]
  by_cases ha : a ∈ l
  · exact of_decide_eq_true (List.all_eq_true.mp h a ha)
  · simp [List.count_eq_zero_of_not_mem ha]

/-- Multiset of a list concatenation. -/
theorem coe_append (l m : List Nat) :
    ((l ++ m : List Nat) : Multiset Nat) = (l : Multiset Nat) + (m : Multiset Nat) :=
  (Multiset.coe_add l m).symm

/-- The active slot of an encoder whose active handle is not the sentinel. -/
theorem activeList_nonzero {a : Nat} (h : a ≠ nullBuffer) (d f : List Nat) :
    activeList ⟨a, d, f⟩ = [a] := by
  unfold activeList
  rw [if_neg h]

/-- The active slot of an encoder with the null sentinel. -/
theorem activeList_null (d f : List Nat) : activeList ⟨nullBuffer, d, f⟩ = [] := by
  unfold activeList
  rw [if_pos rfl]

/-- No allocated handle is the null sentinel. -/
theorem nullBuffer_not_mem_allocate {next count : Nat} (h : 1 ≤ next) :
    nullBuffer ∉ allocate_command_buffers next count := by
  unfold allocate_command_buffers nullBuffer
  simp only [List.mem_map, List.mem_range, not_exists, not_and]
  intro i _
  omega

/-- One valid lifecycle step whose native begin/end calls succeed preserves
handle sanity and pool accounting. -/
theorem invariant_step {t : TraceState} {e : Event}
    (hwf : wellFormed t) (hacc : accounting t)
    (hv : validEvent t e = true) (hg : goodEvent e = true) :
    wellFormed (step t e) ∧ accounting (step t e) := by
  obtain ⟨⟨act, disc, fr⟩, next, alloc, ext⟩ := t
  obtain ⟨hwf1, hwf2, hwf3, hwf4⟩ := hwf
  cases e with
  | beginEncoding a b =>
    have hb : b = none := Option.isNone_iff_eq_none.mp hg
    subst hb
    have hact : act = nullBuffer := by simpa [validEvent] using hv
    subst hact
    rcases List.eq_nil_or_concat fr with hfr | ⟨l, x, hfr⟩
    all_goals (try rw [List.concat_eq_append] at hfr)
    · subst hfr
      cases a with
      | some e0 =>
        have hstep :
            step ⟨⟨nullBuffer, disc, []⟩, next, alloc, ext⟩ (.beginEncoding (some e0) none)
              = ⟨⟨nullBuffer, disc, []⟩, next, alloc, ext⟩ := by
          simp [step, begin_encoding_alloc_fail]
        rw [hstep]
        exact ⟨⟨hwf1, hwf2, hwf3, hwf4⟩, hacc⟩
      | none =>
        have hstep :
            step ⟨⟨nullBuffer, disc, []⟩, next, alloc, ext⟩ (.beginEncoding none none)
              = ⟨⟨next + 15, disc, allocate_command_buffers next 15⟩,
                 next + ALLOCATION_GRANULARITY,
                 alloc ++ allocate_command_buffers next ALLOCATION_GRANULARITY, ext⟩ := by
          simp [step, begin_encoding_empty_free ⟨nullBuffer, disc, []⟩ next rfl]
        rw [hstep]
        have hacc2 : (↑disc : Multiset Nat) + ↑ext = ↑alloc := by
          have h0 := activeList_null disc ([] : List Nat)
          simpa [accounting, h0] using hacc
        constructor
        · refine ⟨nullBuffer_not_mem_allocate hwf4, hwf2, hwf3, ?_⟩
          show 1 ≤ next + ALLOCATION_GRANULARITY
          unfold ALLOCATION_GRANULARITY
          omega
        · show (↑(allocate_command_buffers next 15) : Multiset Nat) + ↑disc
              + ↑(activeList ⟨next + 15, disc, allocate_command_buffers next 15⟩) + ↑ext
            = ↑(alloc ++ allocate_command_buffers next ALLOCATION_GRANULARITY)
          rw [activeList_nonzero (by unfold nullBuffer; omega) disc
              (allocate_command_buffers next 15),
            allocate_split, coe_append, coe_append, ← hacc2]
          abel
    · subst hfr
      have hx0 : x ≠ nullBuffer := by
        intro h
        apply hwf1
        show nullBuffer ∈ l ++ [x]
        subst h
        exact List.mem_append_right l (List.mem_singleton.mpr rfl)
      have hstep :
          step ⟨⟨nullBuffer, disc, l ++ [x]⟩, next, alloc, ext⟩ (.beginEncoding a none)
            = ⟨⟨x, disc, l⟩, next, alloc, ext⟩ := by
        simp [step, begin_encoding_nonempty_free]
      rw [hstep]
      have hacc2 : (↑(l ++ [x]) : Multiset Nat) + ↑disc + ↑ext = ↑alloc := by
        have h0 := activeList_null disc (l ++ [x])
        simpa [accounting, h0] using hacc
      constructor
      · exact ⟨fun h => hwf1 (List.mem_append_left [x] h), hwf2, hwf3, hwf4⟩
      · show (↑l : Multiset Nat) + ↑disc + ↑(activeList ⟨x, disc, l⟩) + ↑ext = ↑alloc
        rw [activeList_nonzero hx0 disc l, ← hacc2, coe_append]
        abel
  | endEncoding e =>
    have he : e = none := Option.isNone_iff_eq_none.mp hg
    subst he
    have hact : act ≠ nullBuffer := by simpa [validEvent] using hv
    have hstep :
        step ⟨⟨act, disc, fr⟩, next, alloc, ext⟩ (.endEncoding none)
          = ⟨⟨nullBuffer, disc, fr⟩, next, alloc, ext ++ [act]⟩ := by
      simp [step, CommandEncoder.end_encoding]
    rw [hstep]
    have hacc2 : (↑fr : Multiset Nat) + ↑disc + ↑[act] + ↑ext = ↑alloc := by
      have h0 := activeList_nonzero hact disc fr
      simpa [accounting, h0] using hacc
    constructor
    · refine ⟨hwf1, hwf2, ?_, hwf4⟩
      intro h
      rcases List.mem_append.mp h with h | h
      · exact hwf3 h
      · exact hact (List.mem_singleton.mp h).symm
    · show (↑fr : Multiset Nat) + ↑disc + ↑(activeList ⟨nullBuffer, disc, fr⟩)
          + ↑(ext ++ [act]) = ↑alloc
      rw [activeList_null disc fr, coe_append, ← hacc2]
      abel
  | discardEncoding =>
    have hact : act ≠ nullBuffer := by simpa [validEvent] using hv
    have hstep :
        step ⟨⟨act, disc, fr⟩, next, alloc, ext⟩ .discardEncoding
          = ⟨⟨nullBuffer, disc ++ [act], fr⟩, next, alloc, ext⟩ := by
      simp [step, CommandEncoder.discard_encoding]
    rw [hstep]
    have hacc2 : (↑fr : Multiset Nat) + ↑disc + ↑[act] + ↑ext = ↑alloc := by
      have h0 := activeList_nonzero hact disc fr
      simpa [accounting, h0] using hacc
    constructor
    · refine ⟨hwf1, ?_, hwf3, hwf4⟩
      intro h
      rcases List.mem_append.mp h with h | h
      · exact hwf2 h
      · exact hact (List.mem_singleton.mp h).symm
    · show (↑fr : Multiset Nat) + ↑(disc ++ [act])
          + ↑(activeList ⟨nullBuffer, disc ++ [act], fr⟩) + ↑ext = ↑alloc
      rw [activeList_null (disc ++ [act]) fr, coe_append, ← hacc2]
      abel
  | resetAll returned r =>
    have hsb : subBag returned ext = true := by simpa [validEvent] using hv
    have hle := subBag_le hsb
    have hret0 : nullBuffer ∉ returned := by
      intro h
      apply hwf3
      have hc := Multiset.le_iff_count.mp hle nullBuffer
      rw [Multiset.coe_count, Multiset.coe_count] at hc
      have : 0 < List.count nullBuffer ext :=
        lt_of_lt_of_le (List.count_pos_iff.mpr h) hc
      exact List.count_pos_iff.mp this
    have hstep :
        step ⟨⟨act, disc, fr⟩, next, alloc, ext⟩ (.resetAll returned r)
          = ⟨⟨act, [], fr ++ returned ++ disc⟩, next, alloc, ext.diff returned⟩ := by
      simp [step, CommandEncoder.reset_all]
    rw [hstep]
    have hdiff : ((ext.diff returned : List Nat) : Multiset Nat) = ↑ext - ↑returned :=
      (Multiset.coe_sub ext returned).symm
    have hcancel : (↑returned : Multiset Nat) + (↑ext - ↑returned) = ↑ext :=
      add_tsub_cancel_of_le hle
    have hacc2 : (↑fr : Multiset Nat) + ↑disc + ↑(activeList ⟨act, disc, fr⟩) + ↑ext
        = ↑alloc := hacc
    constructor
    · refine ⟨?_, by simp, ?_, hwf4⟩
      · intro h
        rcases List.mem_append.mp h with h | h
        · rcases List.mem_append.mp h with h | h
          · exact hwf1 h
          · exact hret0 h
        · exact hwf2 h
      · intro h
        exact hwf3 (List.diff_subset ext returned h)
    · show (↑(fr ++ returned ++ disc) : Multiset Nat) + ↑([] : List Nat)
          + ↑(activeList ⟨act, [], fr ++ returned ++ disc⟩) + ↑(ext.diff returned)
        = ↑alloc
      have hA : activeList ⟨act, [], fr ++ returned ++ disc⟩ = activeList ⟨act, disc, fr⟩ := by
        unfold activeList
        rfl
      rw [hA, hdiff, coe_append, coe_append,
        show ((↑([] : List Nat)) : Multiset Nat) = 0 from rfl, add_zero]
      generalize hD : (↑ext - ↑returned : Multiset Nat) = D
      rw [hD] at hcancel
      have hrearr : (↑fr + ↑returned + ↑disc + ↑(activeList ⟨act, disc, fr⟩) + D
          : Multiset Nat)
          = ↑fr + ↑disc + ↑(activeList ⟨act, disc, fr⟩) + (↑returned + D) := by abel
      rw [hrearr, hcancel]
      exact hacc2

/-- A valid run of good events from a well-formed accounted state keeps the
accounting. -/
theorem invariant_run (es : List Event) :
    ∀ t : TraceState, wellFormed t → accounting t →
      validFrom t es = true → es.all goodEvent = true →
      wellFormed (run t es) ∧ accounting (run t es) := by
  induction es with
  | nil => exact fun t hwf hacc _ _ => ⟨hwf, hacc⟩
  | cons e es ih =>
    intro t hwf hacc hv hg
    rw [validFrom, Bool.and_eq_true] at hv
    rw [List.all_cons, Bool.and_eq_true] at hg
    have h1 := invariant_step hwf hacc hv.1 hg.1
    exact ih (step t e) h1.1 h1.2 hv.2 hg.2

/-- C2 as stated is false on the code: a failing native begin-recording call
drops the handle `begin_encoding` had just popped from the free list — the
handle ends up in no list, is not active and is not returned to the caller.
After one such call on a fresh pool, 16 handles have been allocated and none
is held externally, yet only 15 remain tracked. -/
theorem C2_counterexample :
    validFrom initState exBadTrace = true
  ∧ ¬ accounting (run initState exBadTrace) := by
  constructor
  · decide
  · unfold accounting
    decide

/-- C2 amended: for every contract-respecting sequence of begin / end /
discard / reset_all calls in which the native begin-recording and
end-recording calls succeed (native allocation and pool-reset failures still
allowed), the multiset union of free, discarded, active and the externally
held buffers equals the multiset of all handles ever allocated — no handle
is lost or duplicated. When a native begin or end call fails, the code drops
exactly the affected handle, as the counterexample exhibits. -/
theorem C2_pool_accounting (es : List Event)
    (hv : validFrom initState es = true) (hg : es.all goodEvent = true) :
    accounting (run initState es) :=
  (invariant_run es initState
    ⟨by simp [initState], by simp [initState], by simp [initState], by simp [initState]⟩
    (by unfold accounting; decide)
    hv hg).2

/-- Witness for C2 at a concrete five-event lifecycle trace (begin, end,
return through reset, begin, discard). -/
theorem C2_pool_accounting_witness :
    validFrom initState exTrace = true
  ∧ exTrace.all goodEvent = true
  ∧ accounting (run initState exTrace) :=
  ⟨by decide, by decide, C2_pool_accounting exTrace (by decide) (by decide)⟩

/-- Witness for C7 at byte value 171 (0xAB). -/
theorem C7_fill_buffer_pattern_witness :
    (171 : Nat) < 256
  ∧ (exEncoder.fill_buffer { raw := 5 } { start := 64, «end» := 192 } 171).2.data
      = 171 * 0x01010101 :=
  ⟨by decide, (C7_fill_buffer_pattern exEncoder { raw := 5 }
    { start := 64, «end» := 192 } 171 (by decide)).1⟩
